import Mathlib

/-!
Shallow embedding of `app/main.py` (docker-image-watch) and proofs about it.

The Python program is single-threaded; every stateful interaction with the
Docker daemon is modelled by an explicit environment record that fixes the
outcome of each external call (image lookups, pulls, container operations),
and each Python method becomes a pure Lean function of that environment.
Wall-clock instants and durations are modelled as natural numbers of
abstract time units.
-/

set_option linter.all false

namespace DockerWatch

/-- Result values of `DockerImageWatch.check_for_update_with_status`
(strings `'update_available'`, `'up_to_date'`, `'skipped'`, `'error'`
in the Python source). -/
inductive UpdateStatus where
  | update_available
  | up_to_date
  | skipped
  | error
  deriving DecidableEq, Repr

/-- The locally stored data of one image: its id and its `RepoDigests` list,
as read from `image.attrs` by the Python code. -/
structure ImageInfo where
  id : String
  repoDigests : List String
  deriving DecidableEq, Repr

/-- A local image store: `client.images.get` returns `none` when the image is
absent (`ImageNotFound`) or the lookup fails (`APIError`) — the two cases are
handled identically at every call site of the source. -/
def ImageStore : Type := String → Option ImageInfo

/-!
All string primitives of the source (`in`, `startswith`, `split`, `lower`,
slicing) are translated to structurally recursive functions over the
character list `String.data`, so that every statement about them can be
evaluated by the kernel on concrete inputs. -/

/-- Occurrence test for `pat` inside `s`, over character lists. -/
def subOccurs : List Char → List Char → Bool
  | pat, [] => pat.isEmpty
  | pat, c :: rest => pat.isPrefixOf (c :: rest) || subOccurs pat rest

/-- Python substring test `pat in s`. -/
def containsSub (s pat : String) : Bool :=
  subOccurs pat.data s.data

/-- Python `s.startswith(pre)`. -/
def strStarts (pre s : String) : Bool :=
  pre.data.isPrefixOf s.data

/-- Python `s.lower()`. -/
def strLower (s : String) : String :=
  ⟨s.data.map Char.toLower⟩

/-- Python `c in s` for a single character `c`. -/
def strContains (s : String) (c : Char) : Bool :=
  s.data.contains c

/-- Python `s[:n]`. -/
def strTake (s : String) (n : Nat) : String :=
  ⟨s.data.take n⟩

/-- Python `s.split(sep)` for a one-character separator `sep`. -/
def splitChar (sep : Char) : List Char → List (List Char)
  | [] => [[]]
  | c :: rest =>
    let r := splitChar sep rest
    if c == sep then [] :: r
    else
      match r with
      | [] => [[c]]
      | h :: t => (c :: h) :: t

/-- `DockerImageWatch.get_image_digest` (main.py lines 430-444): the first
entry of `RepoDigests` when that list is non-empty, else the image id as a
fallback sentinel; `none` when the image is absent or the API errors. -/
def get_image_digest (images : ImageStore) (image_name : String) : Option String :=
  match images image_name with
  | none => none
  | some image =>
    match image.repoDigests with
    | [] => some image.id
    | d :: _ => some d

/-- Outcome of the `api_client.pull` call issued by `pull_image`: success, an
`APIError` with a message, or any other exception (which `pull_image` does not
catch and therefore propagates to its caller). -/
inductive PullOutcome where
  | ok
  | apiError (msg : String)
  | exc (msg : String)
  deriving DecidableEq, Repr

/-- The message test from `pull_image` that classifies an `APIError` as
"the reference does not exist in any registry". -/
def pullNotFoundMsg (msg : String) : Bool :=
  containsSub msg "repository does not exist" || containsSub msg "pull access denied"
    || containsSub (strLower msg) "not found"

/-- `DockerImageWatch.pull_image` (main.py lines 446-488), given the outcome
of the underlying docker pull. Returns `(success, is_local_only)`; a
non-`APIError` exception escapes (`Except.error`). The `repo:tag` split in the
source only feeds the docker call and the log lines, both of which are
absorbed into the `PullOutcome` argument. -/
def pull_image (pr : PullOutcome) : Except String (Bool × Bool) :=
  match pr with
  | .ok => Except.ok (true, false)
  | .apiError msg =>
    if containsSub msg "repository does not exist" || containsSub msg "pull access denied" then
      Except.ok (false, true)
    else if containsSub (strLower msg) "not found" then
      Except.ok (false, true)
    else
      Except.ok (false, false)
  | .exc msg => Except.error msg

/-- A running container as seen by the orchestrator: `container.name`,
`container.id`, `container.short_id`, `container.image.tags`,
`attrs['Config']['Image']` (empty string when absent) and `container.labels`. -/
structure Container where
  name : String
  id : String
  short_id : String
  imageTags : List String
  configImage : String
  labels : List (String × String)
  deriving DecidableEq, Repr

/-- `labels.get(key, default)` on the association-list model of a label
dictionary. -/
def labelsGet (ls : List (String × String)) (key deflt : String) : String :=
  match ls.lookup key with
  | some v => v
  | none => deflt

/-- `DockerImageWatch.get_image_name` (main.py lines 490-501): the first image
tag when one exists, else `Config.Image` when it is non-empty and not a
`sha256:` content hash, else `none`. -/
def get_image_name (c : Container) : Option String :=
  match c.imageTags with
  | t :: _ => some t
  | [] =>
    if c.configImage ≠ "" ∧ ¬ (strStarts "sha256:" c.configImage = true) then
      some c.configImage
    else
      none

/-- Python `digest.split('@')[0]`: the repository part of a repo digest. -/
def digestRepo (digest : String) : String :=
  ⟨(splitChar '@' digest.data).headD []⟩

/-- Python `s.split('/')[0]`. -/
def firstSegment (s : String) : String :=
  ⟨(splitChar '/' s.data).headD []⟩

/-- Python `image_name.split(':')[0]`. -/
def imageBase (image_name : String) : String :=
  ⟨(splitChar ':' image_name.data).headD []⟩

/-- Python `s.split('/')[-1]`. -/
def lastSegment (s : String) : String :=
  ⟨(splitChar '/' s.data).getLastD []⟩

/-- The digest loop of `is_local_only_image` (main.py lines 522-543): walk the
`RepoDigests`; return `False` at the first digest whose repository part either
carries a registry host (first `/`-segment containing `.` or `:`) or looks like
an official Docker Hub repository matching the image base name; return `True`
after exhausting the list. -/
def digestLoop (image_name : String) : List String → Bool
  | [] => true
  | digest :: rest =>
    if strContains (digestRepo digest) '/' then
      if strContains (firstSegment (digestRepo digest)) '.'
          || strContains (firstSegment (digestRepo digest)) ':' then
        false
      else
        digestLoop image_name rest
    else
      if digestRepo digest == imageBase image_name
          || digestRepo digest == lastSegment (imageBase image_name) then
        false
      else
        digestLoop image_name rest

/-- `DockerImageWatch.is_local_only_image` (main.py lines 503-566), the Image
Classifier, over a local image store. -/
def is_local_only_image (images : ImageStore) (image_name : String) : Bool :=
  if image_name == "" then true
  else if strStarts "sha256:" image_name then true
  else
    match images image_name with
    | some image =>
      if image.repoDigests.isEmpty then true
      else digestLoop image_name image.repoDigests
    | none =>
      if strContains (imageBase image_name) '/' then
        if strContains (firstSegment (imageBase image_name)) '.'
            || strContains (firstSegment (imageBase image_name)) ':' then false
        else false
      else false

/-- Environment of one invocation of the Update Detector: the local image
store before the pull, the store after the pull, and the outcome of the pull
itself. -/
structure CheckEnv where
  imagesBefore : ImageStore
  imagesAfter : ImageStore
  pullOutcome : PullOutcome

/-- Python truthiness of an optional digest string (`if old_digest and ...`):
present and non-empty. -/
def truthyStr : Option String → Bool
  | none => false
  | some s => s ≠ ""

/-- The body of `check_for_update_with_status` (main.py lines 941-972), i.e.
the code inside its `try`. An uncaught exception from the pull surfaces as
`Except.error`. -/
def check_body (env : CheckEnv) (c : Container) : Except String UpdateStatus :=
  match get_image_name c with
  | none => Except.ok .skipped
  | some image_name =>
    if is_local_only_image env.imagesBefore image_name then Except.ok .skipped
    else
      let old_digest := get_image_digest env.imagesBefore image_name
      match pull_image env.pullOutcome with
      | Except.error msg => Except.error msg
      | Except.ok (pull_success, is_local) =>
        if ¬ pull_success then
          if is_local then Except.ok .skipped else Except.ok .error
        else
          let new_digest := get_image_digest env.imagesAfter image_name
          if truthyStr old_digest ∧ truthyStr new_digest ∧ old_digest ≠ new_digest then
            Except.ok .update_available
          else
            Except.ok .up_to_date

/-- `DockerImageWatch.check_for_update_with_status` (main.py lines 934-976):
the body wrapped in the catch-all `except` that maps any exception to
`'error'`. -/
def check_for_update_with_status (env : CheckEnv) (c : Container) : UpdateStatus :=
  match check_body env c with
  | Except.ok s => s
  | Except.error _ => .error

/-- `ContainerReport` (main.py lines 34-40): name, image, status string
(`'updated'`, `'up-to-date'`, `'skipped'`, `'error'`, `'pending-restart'`)
and free-text message. -/
structure ContainerReport where
  name : String
  image : String
  status : String
  message : String
  deriving DecidableEq, Repr

/-- `UpdateCycleReport` (main.py lines 43-56), without the wall-clock
timestamp string; durations and reclaimed space are abstract `Nat` units. -/
structure Report where
  hostname : String
  duration_seconds : Nat
  containers_checked : Nat
  containers_updated : Nat
  containers_skipped : Nat
  containers_failed : Nat
  images_cleaned : Nat
  space_reclaimed_mb : Nat
  container_reports : List ContainerReport
  errors : List String
  deriving DecidableEq, Repr

/-- The report as freshly initialized at the top of `run_update_cycle`
(main.py lines 729-741). -/
def initReport (hostname : String) : Report :=
  { hostname := hostname
    duration_seconds := 0
    containers_checked := 0
    containers_updated := 0
    containers_skipped := 0
    containers_failed := 0
    images_cleaned := 0
    space_reclaimed_mb := 0
    container_reports := []
    errors := [] }

/-- Observable events of one update cycle, in program order: `listed` marks a
successful `containers.list()`, `checked n` an invocation of the Update
Detector (`check_for_update_with_status`) on the container named `n`,
`recreated n ok` an invocation of the Recreator (`recreate_container`) and its
boolean result, `cleanupRun` the image prune, `webhookSent` the `send_webhook`
call, and `selfRestart` the `_perform_self_restart` call. -/
inductive Ev where
  | listed
  | checked (name : String)
  | recreated (name : String) (ok : Bool)
  | cleanupRun
  | webhookSent
  | selfRestart
  deriving DecidableEq, Repr

/-- An exception value raised inside the cycle: `api` tells whether it is a
docker `APIError` (first `except` arm) or any other exception (second arm). -/
structure Exc where
  api : Bool
  msg : String
  deriving DecidableEq, Repr

/-- The cycle-level error string appended by the two `except` arms of
`run_update_cycle` (main.py lines 885-892). -/
def excString (e : Exc) : String :=
  (if e.api then "Docker API error during update cycle: "
   else "Unexpected error during update cycle: ") ++ e.msg

/-- Mutable state threaded through the per-container loop of
`run_update_cycle`: the report under construction, the process-wide
`self_update_available` / `self_container_image` fields, and the event trace. -/
structure CycleState where
  report : Report
  selfUpdate : Bool
  selfImage : Option String
  trace : List Ev
  deriving Repr

/-- Environment of one `run_update_cycle` invocation: the outcome of
`containers.list()`, the detector environment and the Recreator result for
each container, the prune statistics, the resolved self-container name, the
`HOSTNAME`, the cycle duration, and an optional unexpected exception injected
at a container boundary (`inject = some (k, e)` raises `e` inside the `try`
right after the first `k` containers have been processed; `k ≥` the number of
containers places the exception in the cleanup stage). -/
structure CycleEnv where
  containersList : Except Exc (List Container)
  checkEnvOf : Container → CheckEnv
  recreateOk : Container → Bool
  cleanupImages : Nat
  cleanupSpace : Nat
  inject : Option (Nat × Exc)
  selfName : Option String
  hostname : String
  duration : Nat

/-- `DockerImageWatch._is_self_container` (main.py lines 323-328): compare
against the resolved self name when known, else fall back to matching the
container id against the `HOSTNAME`. -/
def is_self_container (selfName : Option String) (hostname : String) (c : Container) : Bool :=
  match selfName with
  | some n => c.name == n
  | none => strStarts hostname c.id || c.short_id == strTake hostname 12

/-- One iteration of the `for container in containers` loop of
`run_update_cycle` (main.py lines 763-863): the self branch (lines 764-800)
and the ordinary branch (lines 802-863). -/
def processOne (env : CycleEnv) (s : CycleState) (c : Container) : CycleState :=
  if is_self_container env.selfName env.hostname c then
    let image_name := (get_image_name c).getD "unknown"
    let r := check_for_update_with_status (env.checkEnvOf c) c
    let s := { s with trace := s.trace ++ [Ev.checked c.name] }
    match r with
    | .update_available =>
      { s with
        selfUpdate := true
        selfImage := some image_name
        report := { s.report with
          containers_checked := s.report.containers_checked + 1
          container_reports := s.report.container_reports ++
            [⟨c.name, image_name, "pending-restart", "self-update: restart required"⟩] } }
    | .up_to_date =>
      { s with report := { s.report with
          containers_checked := s.report.containers_checked + 1
          container_reports := s.report.container_reports ++
            [⟨c.name, image_name, "up-to-date", "(self)"⟩] } }
    | .skipped =>
      { s with report := { s.report with
          containers_skipped := s.report.containers_skipped + 1
          container_reports := s.report.container_reports ++
            [⟨c.name, image_name, "skipped", "local-only image (self)"⟩] } }
    | .error => s
  else
    let s := { s with report := { s.report with
      containers_checked := s.report.containers_checked + 1 } }
    let image_name := (get_image_name c).getD "unknown"
    if strLower (labelsGet c.labels "docker-image-watch.disable" "") == "true" then
      { s with report := { s.report with
          containers_skipped := s.report.containers_skipped + 1
          container_reports := s.report.container_reports ++
            [⟨c.name, image_name, "skipped", "disabled by label"⟩] } }
    else
      let r := check_for_update_with_status (env.checkEnvOf c) c
      let s := { s with trace := s.trace ++ [Ev.checked c.name] }
      match r with
      | .skipped =>
        { s with report := { s.report with
            containers_skipped := s.report.containers_skipped + 1
            container_reports := s.report.container_reports ++
              [⟨c.name, image_name, "skipped", "local-only image"⟩] } }
      | .update_available =>
        let ok := env.recreateOk c
        let s := { s with trace := s.trace ++ [Ev.recreated c.name ok] }
        if ok then
          { s with report := { s.report with
              containers_updated := s.report.containers_updated + 1
              container_reports := s.report.container_reports ++
                [⟨c.name, image_name, "updated", "successfully updated"⟩] } }
        else
          { s with report := { s.report with
              containers_failed := s.report.containers_failed + 1
              container_reports := s.report.container_reports ++
                [⟨c.name, image_name, "error", "failed to recreate container"⟩] } }
      | .up_to_date =>
        { s with report := { s.report with
            container_reports := s.report.container_reports ++
              [⟨c.name, image_name, "up-to-date", ""⟩] } }
      | .error =>
        { s with report := { s.report with
            containers_failed := s.report.containers_failed + 1
            container_reports := s.report.container_reports ++
              [⟨c.name, image_name, "error", "error checking for updates"⟩] } }

/-- The whole `for container in containers` loop. -/
def processContainers (env : CycleEnv) (cs : List Container) (s : CycleState) : CycleState :=
  match cs with
  | [] => s
  | c :: rest => processContainers env rest (processOne env s c)

/-- Result of one update cycle: the finalized report, the event trace, and
the process-wide self-update fields at return time. -/
structure CycleResult where
  report : Report
  trace : List Ev
  selfUpdate : Bool
  selfImage : Option String
  deriving Repr

/-- `DockerImageWatch.run_update_cycle` (main.py lines 724-902), taking the
values of the process-wide `self_update_available` / `self_container_image`
fields at entry. A failing `containers.list()` lands in the `except` arms; an
empty listing returns early (duration stamped, webhook sent, nothing else);
otherwise the self-update fields are reset, the containers are processed (cut
short when `inject` raises), cleanup and the deferred self-update accounting
run on the exception-free path, and in every case the report is finalized,
`send_webhook` is called, and `_perform_self_restart` runs last when the
self-update flag is set. -/
def run_update_cycle (env : CycleEnv) (initSelfUpdate : Bool)
    (initSelfImage : Option String) : CycleResult :=
  let report := initReport env.hostname
  match env.containersList with
  | Except.error e =>
    let report := { report with
      errors := [excString e]
      duration_seconds := env.duration }
    { report := report
      trace := [Ev.webhookSent] ++ (if initSelfUpdate then [Ev.selfRestart] else [])
      selfUpdate := initSelfUpdate
      selfImage := initSelfImage }
  | Except.ok cs =>
    if cs.isEmpty then
      let report := { report with duration_seconds := env.duration }
      { report := report
        trace := [Ev.listed, Ev.webhookSent]
        selfUpdate := initSelfUpdate
        selfImage := initSelfImage }
    else
      let s0 : CycleState := ⟨report, false, none, [Ev.listed]⟩
      match env.inject with
      | some (k, e) =>
        let s := processContainers env (cs.take k) s0
        let report := { s.report with
          errors := s.report.errors ++ [excString e]
          duration_seconds := env.duration }
        { report := report
          trace := s.trace ++ [Ev.webhookSent] ++
            (if s.selfUpdate then [Ev.selfRestart] else [])
          selfUpdate := s.selfUpdate
          selfImage := s.selfImage }
      | none =>
        let s := processContainers env cs s0
        let report := { s.report with
          images_cleaned := env.cleanupImages
          space_reclaimed_mb := env.cleanupSpace }
        let report :=
          if s.selfUpdate then
            { report with containers_updated := report.containers_updated + 1 }
          else report
        let report := { report with duration_seconds := env.duration }
        { report := report
          trace := s.trace ++ [Ev.cleanupRun, Ev.webhookSent] ++
            (if s.selfUpdate then [Ev.selfRestart] else [])
          selfUpdate := s.selfUpdate
          selfImage := s.selfImage }

/-- One entry of `HostConfig.Mounts` as read by `recreate_container`, and
also the shape of the `Mount(...)` object it builds. -/
structure MountSpec where
  target : String
  source : String
  mountType : String
  readOnly : Bool
  deriving DecidableEq, Repr

/-- The introspected configuration of the container being recreated, i.e. the
values `recreate_container` reads from `container.attrs`. Python truthiness of
the optional dict values maps to: empty list / empty string / `0` / `false` /
`none` are falsy. `restartPolicy` is `none` when the `RestartPolicy` dict is
absent or empty; its two components are `none` when the corresponding key is
missing. -/
structure ContainerAttrs where
  name : String
  image : String
  env : List String
  cmd : List String
  entrypoint : List String
  workingDir : String
  user : String
  labels : List (String × String)
  portBindings : List (String × String)
  binds : List String
  mounts : List MountSpec
  networkMode : String
  restartPolicy : Option (Option String × Option Nat)
  privileged : Bool
  capAdd : List String
  capDrop : List String
  memory : Nat
  nanoCpus : Nat
  deriving DecidableEq, Repr

/-- The keyword-argument dictionary `container_config` that
`recreate_container` passes to `client.containers.run`; `none` means the key
is absent. `volumes` mirrors the Python quirk that a truthy `Binds` list
always creates the key, holding the colon-containing binds (possibly the
empty collection). -/
structure CreateRequest where
  image : String
  name : String
  detach : Bool
  environment : Option (List String)
  command : Option (List String)
  entrypoint : Option (List String)
  working_dir : Option String
  user : Option String
  labels : Option (List (String × String))
  ports : Option (List (String × String))
  volumes : Option (List String)
  mounts : Option (List MountSpec)
  network_mode : Option String
  restart_policy : Option (String × Nat)
  privileged : Option Bool
  cap_add : Option (List String)
  cap_drop : Option (List String)
  mem_limit : Option Nat
  nano_cpus : Option Nat
  deriving DecidableEq, Repr

/-- The `container_config` construction of `recreate_container` (main.py
lines 582-660): start from image/name/detach and add each optional key only
when the introspected source value is truthy. -/
def buildCreateRequest (a : ContainerAttrs) : CreateRequest :=
  { image := a.image
    name := a.name
    detach := true
    environment := if a.env = [] then none else some a.env
    command := if a.cmd = [] then none else some a.cmd
    entrypoint := if a.entrypoint = [] then none else some a.entrypoint
    working_dir := if a.workingDir = "" then none else some a.workingDir
    user := if a.user = "" then none else some a.user
    labels := if a.labels = [] then none else some a.labels
    ports := if a.portBindings = [] then none else some a.portBindings
    volumes :=
      if a.binds = [] then none
      else some (a.binds.filter (fun b => (splitChar ':' b.data).length ≥ 2))
    mounts :=
      if a.mounts = [] then none
      else some (a.mounts.map (fun m =>
        ⟨m.target, m.source, m.mountType, m.readOnly⟩))
    network_mode := if a.networkMode = "" then none else some a.networkMode
    restart_policy :=
      match a.restartPolicy with
      | none => none
      | some p => some (p.1.getD "no", p.2.getD 0)
    privileged := if a.privileged then some true else none
    cap_add := if a.capAdd = [] then none else some a.capAdd
    cap_drop := if a.capDrop = [] then none else some a.capDrop
    mem_limit := if a.memory = 0 then none else some a.memory
    nano_cpus := if a.nanoCpus = 0 then none else some a.nanoCpus }

/-- The docker operations issued by `recreate_container`, in order:
`container.stop(timeout=30)`, `container.remove()`,
`client.containers.run(**container_config)`. -/
inductive RecOp where
  | stopOld (graceSeconds : Nat)
  | removeOld
  | createNew (req : CreateRequest)
  deriving DecidableEq, Repr

/-- Environment of one `recreate_container` invocation: which of the three
docker operations raises. -/
structure RecreateEnv where
  stopFails : Bool
  removeFails : Bool
  createFails : Bool
  deriving DecidableEq, Repr

/-- `DockerImageWatch.recreate_container` (main.py lines 568-679): build the
creation request, then stop (grace 30), remove, create-and-start; the
enclosing `except Exception` turns the first failing operation into an overall
`false` with no further operation attempted and no rollback. Returns the
result and the list of operations actually issued. -/
def recreate_container (env : RecreateEnv) (a : ContainerAttrs) : Bool × List RecOp :=
  let req := buildCreateRequest a
  if env.stopFails then
    (false, [RecOp.stopOld 30])
  else if env.removeFails then
    (false, [RecOp.stopOld 30, RecOp.removeOld])
  else if env.createFails then
    (false, [RecOp.stopOld 30, RecOp.removeOld, RecOp.createNew req])
  else
    (true, [RecOp.stopOld 30, RecOp.removeOld, RecOp.createNew req])

/-- Observable events of the scheduler loop `DockerImageWatch.run` (main.py
lines 1009-1031): one bounded sleep slice, a cycle starting / ending (the flag
on `cycleEnd` tells whether the cycle raised), the recreation of the croniter
from "now" after a successful cycle (line 1027, carrying that "now"), and the
fixed 60-unit backoff of the `except` arm. -/
inductive SEv where
  | sleepSlice (units : Nat)
  | cycleStart (t : Nat)
  | cycleEnd (t : Nat) (raised : Bool)
  | rescheduled (t : Nat)
  | backoff (units : Nat)
  deriving DecidableEq, Repr

/-- Behaviour of one `run_update_cycle()` call started at a given instant:
it returns after `dur` units, either normally or by raising. -/
inductive CycleOutcome where
  | finishes (dur : Nat)
  | raises (dur : Nat)
  deriving DecidableEq, Repr

/-- Environment of the scheduler loop: `cronFn base k` is the instant produced
by the `k`-th `cron.get_next` call on a croniter created at instant `base`;
`stopT` is the instant at which a shutdown signal flips `self.running` (the
flag is only observed between operations); `cycle` gives each cycle's
behaviour as a function of its start instant. -/
structure SchedEnv where
  cronFn : Nat → Nat → Nat
  stopT : Option Nat
  cycle : Nat → CycleOutcome

/-- The value of `self.running` at instant `t`: true until the shutdown
signal arrives. -/
def runningAt (stopT : Option Nat) (t : Nat) : Bool :=
  match stopT with
  | none => true
  | some s2 => t < s2

/-- State of the scheduler loop between iterations: the current instant and
the croniter (its creation base and how many `get_next` calls it has
served). -/
structure SchedState where
  time : Nat
  cronBase : Nat
  cronSteps : Nat
  deriving DecidableEq, Repr

/-- The inner sleep loop (main.py lines 1019-1022): while wait remains and
`self.running` holds, sleep `min wait 60` and subtract it. Returns the slices
slept and the instant reached. -/
def sleepLoop (stopT : Option Nat) (t wait : Nat) : List Nat × Nat :=
  if h : 0 < wait ∧ runningAt stopT t then
    let slice := min wait 60
    let r := sleepLoop stopT (t + slice) (wait - slice)
    (slice :: r.1, r.2)
  else
    ([], t)
termination_by wait
decreasing_by
  omega

/-- One iteration of the `while self.running` loop (main.py lines 1010-1031):
`get_next`, the bounded sleeps, then — if still running — one synchronous
cycle; a normal return recreates the croniter from "now", a raising cycle
falls into the `except` arm which sleeps 60 and leaves the croniter as it
was. -/
def loopIter (env : SchedEnv) (st : SchedState) : List SEv × SchedState :=
  let next_run := env.cronFn st.cronBase (st.cronSteps + 1)
  let steps := st.cronSteps + 1
  let wait := next_run - st.time
  let sl := if 0 < wait then sleepLoop env.stopT st.time wait else ([], st.time)
  let t1 := sl.2
  if runningAt env.stopT t1 then
    match env.cycle t1 with
    | .finishes dur =>
      let t2 := t1 + dur
      (sl.1.map SEv.sleepSlice ++
        [SEv.cycleStart t1, SEv.cycleEnd t2 false, SEv.rescheduled t2],
       { time := t2, cronBase := t2, cronSteps := 0 })
    | .raises dur =>
      let t2 := t1 + dur
      (sl.1.map SEv.sleepSlice ++
        [SEv.cycleStart t1, SEv.cycleEnd t2 true, SEv.backoff 60],
       { time := t2 + 60, cronBase := st.cronBase, cronSteps := steps })
  else
    (sl.1.map SEv.sleepSlice, { time := t1, cronBase := st.cronBase, cronSteps := steps })

/-- The `while self.running` loop itself, with fuel bounding the number of
iterations observed (the Python loop runs until shutdown). -/
def schedRun (env : SchedEnv) : Nat → SchedState → List SEv
  | 0, _ => []
  | n + 1, st =>
    if runningAt env.stopT st.time then
      let r := loopIter env st
      r.1 ++ schedRun env n r.2
    else []

/-- The trace contributed by one loop iteration, classified: either the loop
observed shutdown mid-sleep and ran no cycle, or it ran one full cycle that
finished (and was then rescheduled from the finish instant), or it ran one
full cycle that raised (followed by the fixed backoff). -/
inductive IterBlock where
  | stoppedEarly (slices : List Nat)
  | finishedCycle (slices : List Nat) (t1 t2 : Nat)
  | raisedCycle (slices : List Nat) (t1 t2 : Nat)
  deriving DecidableEq, Repr

/-- The events of one iteration block. -/
def blockEvents : IterBlock → List SEv
  | .stoppedEarly sl => sl.map SEv.sleepSlice
  | .finishedCycle sl t1 t2 =>
    sl.map SEv.sleepSlice ++ [SEv.cycleStart t1, SEv.cycleEnd t2 false, SEv.rescheduled t2]
  | .raisedCycle sl t1 t2 =>
    sl.map SEv.sleepSlice ++ [SEv.cycleStart t1, SEv.cycleEnd t2 true, SEv.backoff 60]

/-- Well-formedness of a block: every sleep slice is at most 60 units, and a
cycle ends no earlier than it starts. -/
def blockWf : IterBlock → Prop
  | .stoppedEarly sl => ∀ k ∈ sl, k ≤ 60
  | .finishedCycle sl t1 t2 => (∀ k ∈ sl, k ≤ 60) ∧ t1 ≤ t2
  | .raisedCycle sl t1 t2 => (∀ k ∈ sl, k ≤ 60) ∧ t1 ≤ t2

/-- Concatenation of the events of a list of blocks. -/
def blocksEvents : List IterBlock → List SEv
  | [] => []
  | b :: rest => blockEvents b ++ blocksEvents rest

/-! ### Helper lemmas -/

/-- `pull_image` on an `APIError` never escapes and reports local-only
exactly when the message matches the not-found patterns. -/
theorem pull_image_apiError (msg : String) :
    pull_image (PullOutcome.apiError msg) = Except.ok (false, pullNotFoundMsg msg) := by
  simp only [pull_image, pullNotFoundMsg]
  cases h1 : containsSub msg "repository does not exist" <;>
    cases h2 : containsSub msg "pull access denied" <;>
      cases h3 : containsSub (strLower msg) "not found" <;> simp [h1, h2, h3]

/-- If any digest in the list carries a registry host in its repository part,
the digest loop answers `false`. -/
theorem digestLoop_false_of_registry (name : String) (ds : List String) (d : String)
    (hmem : d ∈ ds)
    (hs : strContains (digestRepo d) '/' = true)
    (hdot : strContains (firstSegment (digestRepo d)) '.' = true ∨
      strContains (firstSegment (digestRepo d)) ':' = true) :
    digestLoop name ds = false := by
  induction ds with
  | nil => cases hmem
  | cons x rest ih =>
    rcases List.mem_cons.mp hmem with rfl | hmem2
    · rcases hdot with h | h <;> simp [digestLoop, hs, h]
    · simp only [digestLoop]
      split_ifs <;> first | rfl | exact ih hmem2

/-! ### Claim theorems: Update Detector and Image Classifier -/

/-- Claim C6: the Image Classifier returns local-only for every `sha256:`
content-hash reference; returns local-only for an image present locally with
no repository digests; returns not-local-only whenever some digest's
repository has a first `/`-segment containing a dot or a colon; and for any
non-empty, non-content-hash reference whose image is not present locally it
returns not-local-only (allowing a pull attempt). -/
theorem check_C6_is_local_only_classifier :
    (∀ (images : ImageStore) (name : String),
      strStarts "sha256:" name = true → is_local_only_image images name = true) ∧
    (∀ (images : ImageStore) (name : String) (info : ImageInfo),
      images name = some info → info.repoDigests = [] →
      is_local_only_image images name = true) ∧
    (∀ (images : ImageStore) (name : String) (info : ImageInfo) (d : String),
      images name = some info → d ∈ info.repoDigests →
      strContains (digestRepo d) '/' = true →
      (strContains (firstSegment (digestRepo d)) '.' = true ∨
        strContains (firstSegment (digestRepo d)) ':' = true) →
      (name == "") = false → strStarts "sha256:" name = false →
      is_local_only_image images name = false) ∧
    (∀ (images : ImageStore) (name : String),
      images name = none → (name == "") = false →
      strStarts "sha256:" name = false →
      is_local_only_image images name = false) := by
  refine ⟨?_, ?_, ?_, ?_⟩
  · intro images name h
    by_cases h0 : (name == "") = true
    · simp [is_local_only_image, h0]
    · simp only [Bool.not_eq_true] at h0
      simp [is_local_only_image, h0, h]
  · intro images name info h1 h2
    by_cases h0 : (name == "") = true
    · simp [is_local_only_image, h0]
    · simp only [Bool.not_eq_true] at h0
      by_cases hsha : strStarts "sha256:" name = true
      · simp [is_local_only_image, h0, hsha]
      · simp only [Bool.not_eq_true] at hsha
        simp [is_local_only_image, h0, hsha, h1, h2]
  · intro images name info d h1 h2 h3 h4 h5 h6
    have hne : info.repoDigests.isEmpty = false := by
      cases hrd : info.repoDigests with
      | nil => rw [hrd] at h2; cases h2
      | cons a t => rfl
    simp [is_local_only_image, h5, h6, h1, hne,
      digestLoop_false_of_registry name info.repoDigests d h2 h3 h4]
  · intro images name h1 h5 h6
    simp only [is_local_only_image, h5, h6, h1]
    split_ifs <;> first | rfl | assumption

/-- Witness for C6 at concrete inputs: a content-hash reference, a digestless
local image, an image whose digest names the registry `ghcr.io`, and an
absent image. -/
theorem check_C6_witness :
    is_local_only_image (fun _ => none) "sha256:0a1b" = true ∧
    is_local_only_image
      (fun n => if n == "mybuild:latest" then some ⟨"idX", []⟩ else none)
      "mybuild:latest" = true ∧
    is_local_only_image
      (fun n => if n == "app:1" then some ⟨"idY", ["ghcr.io/u/app@sha256:9f"]⟩ else none)
      "app:1" = false ∧
    is_local_only_image (fun _ => none) "nginx:latest" = false := by
  obtain ⟨p1, p2, p3, p4⟩ := check_C6_is_local_only_classifier
  refine ⟨p1 _ _ (by decide), ?_, ?_, p4 _ _ rfl (by decide) (by decide)⟩
  · exact p2 _ _ ⟨"idX", []⟩ rfl rfl
  · exact p3 _ _ ⟨"idY", ["ghcr.io/u/app@sha256:9f"]⟩ "ghcr.io/u/app@sha256:9f"
      rfl (by decide) (by decide) (Or.inl (by decide)) (by decide) (by decide)

/-- Claim C1: the update check returns `skipped` when the container resolves
no tagged image reference or the classifier marks the image local-only;
otherwise, when the pull succeeds, it returns `update_available` iff both the
pre-pull and the post-pull digest are present and non-empty and differ, and
`up_to_date` in every other successful-pull case. -/
theorem check_C1_update_detector (env : CheckEnv) (c : Container) :
    ((get_image_name c = none ∨
        ∃ n, get_image_name c = some n ∧ is_local_only_image env.imagesBefore n = true) →
      check_for_update_with_status env c = .skipped) ∧
    (∀ n, get_image_name c = some n →
      is_local_only_image env.imagesBefore n = false →
      env.pullOutcome = PullOutcome.ok →
      ((check_for_update_with_status env c = .update_available ↔
          (truthyStr (get_image_digest env.imagesBefore n) = true ∧
           truthyStr (get_image_digest env.imagesAfter n) = true ∧
           get_image_digest env.imagesBefore n ≠ get_image_digest env.imagesAfter n)) ∧
        (check_for_update_with_status env c = .update_available ∨
         check_for_update_with_status env c = .up_to_date))) := by
  constructor
  · rintro (h | ⟨n, hn, hl⟩)
    · simp [check_for_update_with_status, check_body, h]
    · simp [check_for_update_with_status, check_body, hn, hl]
  · intro n hn hl hp
    by_cases hc : truthyStr (get_image_digest env.imagesBefore n) = true ∧
        truthyStr (get_image_digest env.imagesAfter n) = true ∧
        get_image_digest env.imagesBefore n ≠ get_image_digest env.imagesAfter n
    · have hres : check_for_update_with_status env c = .update_available := by
        simp [check_for_update_with_status, check_body, hn, hl, hp, pull_image, hc,
          hc.1, hc.2.1, hc.2.2]
      exact ⟨⟨fun _ => hc, fun _ => hres⟩, Or.inl hres⟩
    · have hres : check_for_update_with_status env c = .up_to_date := by
        simp only [check_for_update_with_status, check_body, hn, hl, hp, pull_image]
        simp [hc]
      rw [hres]
      refine ⟨⟨fun h2 => absurd h2 (by decide), fun h3 => absurd h3 hc⟩, Or.inr rfl⟩

/-- Witness for C1: a tagged registry image whose digest changes across the
pull yields `update_available`. -/
theorem check_C1_witness :
    check_for_update_with_status
      { imagesBefore := fun n =>
          if n == "nginx:latest" then some ⟨"idA", ["docker.io/nginx@sha256:aa"]⟩ else none
        imagesAfter := fun n =>
          if n == "nginx:latest" then some ⟨"idB", ["docker.io/nginx@sha256:bb"]⟩ else none
        pullOutcome := PullOutcome.ok }
      ⟨"web", "cid", "sid", ["nginx:latest"], "", []⟩ = UpdateStatus.update_available := by
  exact ((check_C1_update_detector
      { imagesBefore := fun n =>
          if n == "nginx:latest" then some ⟨"idA", ["docker.io/nginx@sha256:aa"]⟩ else none
        imagesAfter := fun n =>
          if n == "nginx:latest" then some ⟨"idB", ["docker.io/nginx@sha256:bb"]⟩ else none
        pullOutcome := PullOutcome.ok }
      ⟨"web", "cid", "sid", ["nginx:latest"], "", []⟩).2
    "nginx:latest" rfl (by decide) rfl).1.mpr ⟨by decide, by decide, by decide⟩

/-- Claim C5: a pull failure whose `APIError` message matches the not-found
patterns makes the check return `skipped`; any other `APIError` yields
`error`; and whenever the body of the check raises, the catch-all maps it to
`error`, so the detector never propagates an exception. -/
theorem check_C5_pull_failure (env : CheckEnv) (c : Container) :
    (∀ n msg, get_image_name c = some n →
      is_local_only_image env.imagesBefore n = false →
      env.pullOutcome = PullOutcome.apiError msg →
      ((pullNotFoundMsg msg = true → check_for_update_with_status env c = .skipped) ∧
       (pullNotFoundMsg msg = false → check_for_update_with_status env c = .error))) ∧
    (∀ msg, check_body env c = Except.error msg →
      check_for_update_with_status env c = .error) := by
  constructor
  · intro n msg hn hl hp
    constructor <;> intro hm <;>
      simp [check_for_update_with_status, check_body, hn, hl, hp, pull_image_apiError, hm]
  · intro msg h
    simp [check_for_update_with_status, h]

/-- Witness for C5: an access-denied pull maps to `skipped`, a pull raising a
non-`APIError` exception maps to `error`. -/
theorem check_C5_witness :
    check_for_update_with_status
      { imagesBefore := fun n =>
          if n == "nginx:latest" then some ⟨"idA", ["docker.io/nginx@sha256:aa"]⟩ else none
        imagesAfter := fun _ => none
        pullOutcome := PullOutcome.apiError "pull access denied for nginx" }
      ⟨"web", "cid", "sid", ["nginx:latest"], "", []⟩ = UpdateStatus.skipped ∧
    check_for_update_with_status
      { imagesBefore := fun n =>
          if n == "nginx:latest" then some ⟨"idA", ["docker.io/nginx@sha256:aa"]⟩ else none
        imagesAfter := fun _ => none
        pullOutcome := PullOutcome.exc "connection reset" }
      ⟨"web", "cid", "sid", ["nginx:latest"], "", []⟩ = UpdateStatus.error := by
  constructor
  · exact ((check_C5_pull_failure
        { imagesBefore := fun n =>
            if n == "nginx:latest" then some ⟨"idA", ["docker.io/nginx@sha256:aa"]⟩ else none
          imagesAfter := fun _ => none
          pullOutcome := PullOutcome.apiError "pull access denied for nginx" }
        ⟨"web", "cid", "sid", ["nginx:latest"], "", []⟩).1
      "nginx:latest" "pull access denied for nginx" rfl (by decide) rfl).1 (by decide)
  · exact (check_C5_pull_failure
        { imagesBefore := fun n =>
            if n == "nginx:latest" then some ⟨"idA", ["docker.io/nginx@sha256:aa"]⟩ else none
          imagesAfter := fun _ => none
          pullOutcome := PullOutcome.exc "connection reset" }
        ⟨"web", "cid", "sid", ["nginx:latest"], "", []⟩).2
      "connection reset" rfl

/-! ### Helper lemmas about the per-container loop -/

/-- Number of `'updated'` entries among the container reports. -/
def updatedCount (l : List ContainerReport) : Nat :=
  l.countP (fun r => r.status == "updated")

/-- The self-update flag is never cleared by processing a container. -/
theorem processOne_selfUpdate_mono (env : CycleEnv) (s : CycleState) (c : Container)
    (h : s.selfUpdate = true) : (processOne env s c).selfUpdate = true := by
  by_cases hs : is_self_container env.selfName env.hostname c = true <;>
    by_cases hl : (strLower (labelsGet c.labels "docker-image-watch.disable" "") == "true") = true <;>
      cases hr : check_for_update_with_status (env.checkEnvOf c) c <;>
        by_cases hk : env.recreateOk c = true <;>
          simp [processOne, hs, hl, hr, hk, h]

/-- Processing the self container with outcome `update_available` sets the
self-update flag. -/
theorem processOne_selfUpdate_set (env : CycleEnv) (s : CycleState) (c : Container)
    (hs : is_self_container env.selfName env.hostname c = true)
    (hr : check_for_update_with_status (env.checkEnvOf c) c = .update_available) :
    (processOne env s c).selfUpdate = true := by
  simp [processOne, hs, hr]

/-- Flag monotonicity through the whole loop. -/
theorem processContainers_selfUpdate_mono (env : CycleEnv) (cs : List Container)
    (s : CycleState) (h : s.selfUpdate = true) :
    (processContainers env cs s).selfUpdate = true := by
  induction cs generalizing s with
  | nil => exact h
  | cons c rest ih => exact ih _ (processOne_selfUpdate_mono env s c h)

/-- If some container of the list is the self container and its check says
`update_available`, the loop ends with the self-update flag set. -/
theorem processContainers_selfUpdate_of_mem (env : CycleEnv) (cs : List Container)
    (s : CycleState) (c : Container) (hmem : c ∈ cs)
    (hs : is_self_container env.selfName env.hostname c = true)
    (hr : check_for_update_with_status (env.checkEnvOf c) c = .update_available) :
    (processContainers env cs s).selfUpdate = true := by
  induction cs generalizing s with
  | nil => cases hmem
  | cons x rest ih =>
    rcases List.mem_cons.mp hmem with rfl | hm
    · exact processContainers_selfUpdate_mono env rest _
        (processOne_selfUpdate_set env s c hs hr)
    · exact ih _ hm

/-- Invariant: the `containers_updated` counter equals the number of
`'updated'` container reports, preserved by each loop iteration. -/
theorem processOne_updated_inv (env : CycleEnv) (s : CycleState) (c : Container)
    (h : s.report.containers_updated = updatedCount s.report.container_reports) :
    (processOne env s c).report.containers_updated =
      updatedCount (processOne env s c).report.container_reports := by
  by_cases hs : is_self_container env.selfName env.hostname c = true <;>
    by_cases hl : (strLower (labelsGet c.labels "docker-image-watch.disable" "") == "true") = true <;>
      cases hr : check_for_update_with_status (env.checkEnvOf c) c <;>
        by_cases hk : env.recreateOk c = true <;>
          simp [processOne, hs, hl, hr, hk, h, updatedCount, List.countP_append,
            List.countP_cons, List.countP_nil]

/-- The counter/report-count invariant holds after the whole loop. -/
theorem processContainers_updated_inv (env : CycleEnv) (cs : List Container)
    (s : CycleState)
    (h : s.report.containers_updated = updatedCount s.report.container_reports) :
    (processContainers env cs s).report.containers_updated =
      updatedCount (processContainers env cs s).report.container_reports := by
  induction cs generalizing s with
  | nil => exact h
  | cons c rest ih => exact ih _ (processOne_updated_inv env s c h)

/-- Each loop iteration only appends container reports. -/
theorem processOne_report_mem (env : CycleEnv) (s : CycleState) (c : Container)
    (r : ContainerReport) (h : r ∈ s.report.container_reports) :
    r ∈ (processOne env s c).report.container_reports := by
  by_cases hs : is_self_container env.selfName env.hostname c = true <;>
    by_cases hl : (strLower (labelsGet c.labels "docker-image-watch.disable" "") == "true") = true <;>
      cases hr : check_for_update_with_status (env.checkEnvOf c) c <;>
        by_cases hk : env.recreateOk c = true <;>
          simp [processOne, hs, hl, hr, hk, List.mem_append, h]

/-- Report membership is preserved by the rest of the loop. -/
theorem processContainers_report_mem (env : CycleEnv) (cs : List Container)
    (s : CycleState) (r : ContainerReport) (h : r ∈ s.report.container_reports) :
    r ∈ (processContainers env cs s).report.container_reports := by
  induction cs generalizing s with
  | nil => exact h
  | cons c rest ih => exact ih _ (processOne_report_mem env s c r h)

/-- Processing the self container with outcome `update_available` records the
`pending-restart` report. -/
theorem processOne_pending_report (env : CycleEnv) (s : CycleState) (c : Container)
    (hs : is_self_container env.selfName env.hostname c = true)
    (hr : check_for_update_with_status (env.checkEnvOf c) c = .update_available) :
    (⟨c.name, (get_image_name c).getD "unknown", "pending-restart",
      "self-update: restart required"⟩ : ContainerReport) ∈
      (processOne env s c).report.container_reports := by
  simp [processOne, hs, hr]

/-- If the self container is in the list and its check says
`update_available`, the loop's final report carries its `pending-restart`
entry. -/
theorem processContainers_pending_report (env : CycleEnv) (cs : List Container)
    (s : CycleState) (c : Container) (hmem : c ∈ cs)
    (hs : is_self_container env.selfName env.hostname c = true)
    (hr : check_for_update_with_status (env.checkEnvOf c) c = .update_available) :
    (⟨c.name, (get_image_name c).getD "unknown", "pending-restart",
      "self-update: restart required"⟩ : ContainerReport) ∈
      (processContainers env cs s).report.container_reports := by
  induction cs generalizing s with
  | nil => cases hmem
  | cons x rest ih =>
    rcases List.mem_cons.mp hmem with rfl | hm
    · exact processContainers_report_mem env rest _ _
        (processOne_pending_report env s c hs hr)
    · exact ih _ hm

/-- Any Recreator invocation recorded while processing a container either was
already in the trace or names that container, which is then not the self
container. -/
theorem processOne_recreated_mem (env : CycleEnv) (s : CycleState) (c : Container)
    (n : String) (b : Bool)
    (h : Ev.recreated n b ∈ (processOne env s c).trace) :
    Ev.recreated n b ∈ s.trace ∨
      (is_self_container env.selfName env.hostname c = false ∧ n = c.name) := by
  by_cases hs : is_self_container env.selfName env.hostname c = true <;>
    by_cases hl : (strLower (labelsGet c.labels "docker-image-watch.disable" "") == "true") = true <;>
      cases hr : check_for_update_with_status (env.checkEnvOf c) c <;>
        by_cases hk : env.recreateOk c = true <;>
          simp only [processOne, hs, hl, hr, hk, if_true, if_false] at h <;>
            simp_all [List.mem_append] <;> tauto

/-- Recreator invocations recorded by the loop always concern a non-self
container of the list. -/
theorem processContainers_recreated_mem (env : CycleEnv) (cs : List Container)
    (s : CycleState) (n : String) (b : Bool)
    (h : Ev.recreated n b ∈ (processContainers env cs s).trace) :
    Ev.recreated n b ∈ s.trace ∨
      ∃ c ∈ cs, is_self_container env.selfName env.hostname c = false ∧ n = c.name := by
  induction cs generalizing s with
  | nil => exact Or.inl h
  | cons x rest ih =>
    rcases ih _ h with h2 | ⟨c, hc, hcc⟩
    · rcases processOne_recreated_mem env s x n b h2 with h3 | h3
      · exact Or.inl h3
      · exact Or.inr ⟨x, List.mem_cons_self x rest, h3⟩
    · exact Or.inr ⟨c, List.mem_cons_of_mem x hc, hcc⟩

/-- Any detector invocation recorded while processing a container either was
already in the trace or names that container. -/
theorem processOne_checked_mem (env : CycleEnv) (s : CycleState) (c : Container)
    (n : String) (h : Ev.checked n ∈ (processOne env s c).trace) :
    Ev.checked n ∈ s.trace ∨ n = c.name := by
  by_cases hs : is_self_container env.selfName env.hostname c = true <;>
    by_cases hl : (strLower (labelsGet c.labels "docker-image-watch.disable" "") == "true") = true <;>
      cases hr : check_for_update_with_status (env.checkEnvOf c) c <;>
        by_cases hk : env.recreateOk c = true <;>
          simp only [processOne, hs, hl, hr, hk, if_true, if_false] at h <;>
            simp_all [List.mem_append] <;> tauto

/-- Detector invocations recorded by the loop always name a container of the
list. -/
theorem processContainers_checked_mem (env : CycleEnv) (cs : List Container)
    (s : CycleState) (n : String)
    (h : Ev.checked n ∈ (processContainers env cs s).trace) :
    Ev.checked n ∈ s.trace ∨ ∃ c ∈ cs, n = c.name := by
  induction cs generalizing s with
  | nil => exact Or.inl h
  | cons x rest ih =>
    rcases ih _ h with h2 | ⟨c, hc, hcc⟩
    · rcases processOne_checked_mem env s x n h2 with h3 | h3
      · exact Or.inl h3
      · exact Or.inr ⟨x, List.mem_cons_self x rest, h3⟩
    · exact Or.inr ⟨c, List.mem_cons_of_mem x hc, hcc⟩

/-- The number of reports grows by one per processed container, except for a
self container whose check returns `error`, which adds none. -/
theorem processOne_report_len (env : CycleEnv) (s : CycleState) (c : Container) :
    (processOne env s c).report.container_reports.length =
      s.report.container_reports.length +
        (if is_self_container env.selfName env.hostname c = true ∧
            check_for_update_with_status (env.checkEnvOf c) c = .error then 0 else 1) := by
  by_cases hs : is_self_container env.selfName env.hostname c = true <;>
    by_cases hl : (strLower (labelsGet c.labels "docker-image-watch.disable" "") == "true") = true <;>
      cases hr : check_for_update_with_status (env.checkEnvOf c) c <;>
        by_cases hk : env.recreateOk c = true <;>
          simp [processOne, hs, hl, hr, hk]

/-- The per-container loop never touches the cycle-level error list. -/
theorem processOne_errors (env : CycleEnv) (s : CycleState) (c : Container) :
    (processOne env s c).report.errors = s.report.errors := by
  by_cases hs : is_self_container env.selfName env.hostname c = true <;>
    by_cases hl : (strLower (labelsGet c.labels "docker-image-watch.disable" "") == "true") = true <;>
      cases hr : check_for_update_with_status (env.checkEnvOf c) c <;>
        by_cases hk : env.recreateOk c = true <;>
          simp [processOne, hs, hl, hr, hk]

/-- The whole loop never touches the cycle-level error list. -/
theorem processContainers_errors (env : CycleEnv) (cs : List Container) (s : CycleState) :
    (processContainers env cs s).report.errors = s.report.errors := by
  induction cs generalizing s with
  | nil => rfl
  | cons c rest ih => rw [processContainers, ih, processOne_errors]

/-! ### Claim theorems: per-container processing in the cycle -/

/-- Claim C9: an ordinary container whose opt-out label
`docker-image-watch.disable` is set to a truthy value (the repository's
uniform truthiness convention: the value lowercases to `"true"`) is
short-circuited to a `skipped` report with message `"disabled by label"`, the
skipped counter is incremented, and the Update Detector is never invoked —
the trace, which records every detector invocation, is unchanged. -/
theorem cycle_C9_disable_label (env : CycleEnv) (s : CycleState) (c : Container)
    (hself : is_self_container env.selfName env.hostname c = false)
    (hlabel : (strLower (labelsGet c.labels "docker-image-watch.disable" "") == "true") = true) :
    (processOne env s c).report.containers_skipped = s.report.containers_skipped + 1 ∧
    (processOne env s c).report.container_reports = s.report.container_reports ++
      [⟨c.name, (get_image_name c).getD "unknown", "skipped", "disabled by label"⟩] ∧
    (processOne env s c).trace = s.trace := by
  simp [processOne, hself, hlabel]

/-- Witness for C9 at a concrete container carrying the label value
`"True"`. -/
theorem cycle_C9_witness :
    (processOne
      { containersList := Except.ok []
        checkEnvOf := fun _ =>
          { imagesBefore := fun _ => none, imagesAfter := fun _ => none
            pullOutcome := PullOutcome.ok }
        recreateOk := fun _ => true
        cleanupImages := 0, cleanupSpace := 0
        inject := none
        selfName := some "watcher"
        hostname := "h0"
        duration := 0 }
      ⟨initReport "h0", false, none, [Ev.listed]⟩
      ⟨"dis", "cid2", "sid2", ["redis:7"], "", [("docker-image-watch.disable", "True")]⟩).report.containers_skipped = 1 ∧
    (processOne
      { containersList := Except.ok []
        checkEnvOf := fun _ =>
          { imagesBefore := fun _ => none, imagesAfter := fun _ => none
            pullOutcome := PullOutcome.ok }
        recreateOk := fun _ => true
        cleanupImages := 0, cleanupSpace := 0
        inject := none
        selfName := some "watcher"
        hostname := "h0"
        duration := 0 }
      ⟨initReport "h0", false, none, [Ev.listed]⟩
      ⟨"dis", "cid2", "sid2", ["redis:7"], "", [("docker-image-watch.disable", "True")]⟩).trace = [Ev.listed] := by
  have h := cycle_C9_disable_label
    { containersList := Except.ok []
      checkEnvOf := fun _ =>
        { imagesBefore := fun _ => none, imagesAfter := fun _ => none
          pullOutcome := PullOutcome.ok }
      recreateOk := fun _ => true
      cleanupImages := 0, cleanupSpace := 0
      inject := none
      selfName := some "watcher"
      hostname := "h0"
      duration := 0 }
    ⟨initReport "h0", false, none, [Ev.listed]⟩
    ⟨"dis", "cid2", "sid2", ["redis:7"], "", [("docker-image-watch.disable", "True")]⟩
    (by decide) (by decide)
  exact ⟨h.1, h.2.2⟩

/-- Claim C10: counters move asymmetrically — an ordinary container always
increments `containers_checked` (before the label check and the detector
run), a self container whose check is `skipped` increments only
`containers_skipped`, and a self container whose check is `error` changes no
counter. -/
theorem cycle_C10_counter_asymmetry (env : CycleEnv) (s : CycleState) (c : Container) :
    (is_self_container env.selfName env.hostname c = false →
      (processOne env s c).report.containers_checked = s.report.containers_checked + 1) ∧
    (is_self_container env.selfName env.hostname c = true →
      check_for_update_with_status (env.checkEnvOf c) c = .skipped →
      (processOne env s c).report.containers_skipped = s.report.containers_skipped + 1 ∧
      (processOne env s c).report.containers_checked = s.report.containers_checked ∧
      (processOne env s c).report.containers_updated = s.report.containers_updated ∧
      (processOne env s c).report.containers_failed = s.report.containers_failed) ∧
    (is_self_container env.selfName env.hostname c = true →
      check_for_update_with_status (env.checkEnvOf c) c = .error →
      (processOne env s c).report.containers_checked = s.report.containers_checked ∧
      (processOne env s c).report.containers_updated = s.report.containers_updated ∧
      (processOne env s c).report.containers_skipped = s.report.containers_skipped ∧
      (processOne env s c).report.containers_failed = s.report.containers_failed) := by
  refine ⟨?_, ?_, ?_⟩
  · intro hself
    by_cases hl : (strLower (labelsGet c.labels "docker-image-watch.disable" "") == "true") = true
    · simp [processOne, hself, hl]
    · simp only [Bool.not_eq_true] at hl
      cases hr : check_for_update_with_status (env.checkEnvOf c) c <;>
        by_cases hk : env.recreateOk c = true <;>
          simp [processOne, hself, hl, hr, hk]
  · intro hself hr
    simp [processOne, hself, hr]
  · intro hself hr
    simp [processOne, hself, hr]

/-- Witness for C10: the three scenarios at concrete inputs (an ordinary
container that is skipped by label still bumps `containers_checked`; a self
container skipped as local-only bumps only `containers_skipped`; a self
container with a failing check leaves every counter at zero). -/
theorem cycle_C10_witness :
    (processOne
      { containersList := Except.ok []
        checkEnvOf := fun _ =>
          { imagesBefore := fun _ => none, imagesAfter := fun _ => none
            pullOutcome := PullOutcome.ok }
        recreateOk := fun _ => true
        cleanupImages := 0, cleanupSpace := 0
        inject := none
        selfName := some "watcher"
        hostname := "h0"
        duration := 0 }
      ⟨initReport "h0", false, none, []⟩
      ⟨"dis", "cid2", "sid2", ["redis:7"], "", [("docker-image-watch.disable", "true")]⟩).report.containers_checked = 1 ∧
    (processOne
      { containersList := Except.ok []
        checkEnvOf := fun _ =>
          { imagesBefore := fun _ => none, imagesAfter := fun _ => none
            pullOutcome := PullOutcome.ok }
        recreateOk := fun _ => true
        cleanupImages := 0, cleanupSpace := 0
        inject := none
        selfName := some "watcher"
        hostname := "h0"
        duration := 0 }
      ⟨initReport "h0", false, none, []⟩
      ⟨"watcher", "cid0", "sid0", [], "sha256:77aa", []⟩).report.containers_skipped = 1 ∧
    (processOne
      { containersList := Except.ok []
        checkEnvOf := fun _ =>
          { imagesBefore := fun n =>
              if n == "me/watch:1" then some ⟨"idS", ["docker.io/me/watch@sha256:55"]⟩ else none
            imagesAfter := fun _ => none
            pullOutcome := PullOutcome.exc "boom" }
        recreateOk := fun _ => true
        cleanupImages := 0, cleanupSpace := 0
        inject := none
        selfName := some "watcher"
        hostname := "h0"
        duration := 0 }
      ⟨initReport "h0", false, none, []⟩
      ⟨"watcher", "cid0", "sid0", ["me/watch:1"], "", []⟩).report.containers_checked = 0 := by
  refine ⟨?_, ?_, ?_⟩
  · exact (cycle_C10_counter_asymmetry
      { containersList := Except.ok []
        checkEnvOf := fun _ =>
          { imagesBefore := fun _ => none, imagesAfter := fun _ => none
            pullOutcome := PullOutcome.ok }
        recreateOk := fun _ => true
        cleanupImages := 0, cleanupSpace := 0
        inject := none
        selfName := some "watcher"
        hostname := "h0"
        duration := 0 }
      ⟨initReport "h0", false, none, []⟩
      ⟨"dis", "cid2", "sid2", ["redis:7"], "", [("docker-image-watch.disable", "true")]⟩).1 (by decide)
  · exact ((cycle_C10_counter_asymmetry
      { containersList := Except.ok []
        checkEnvOf := fun _ =>
          { imagesBefore := fun _ => none, imagesAfter := fun _ => none
            pullOutcome := PullOutcome.ok }
        recreateOk := fun _ => true
        cleanupImages := 0, cleanupSpace := 0
        inject := none
        selfName := some "watcher"
        hostname := "h0"
        duration := 0 }
      ⟨initReport "h0", false, none, []⟩
      ⟨"watcher", "cid0", "sid0", [], "sha256:77aa", []⟩).2.1 (by decide) (by decide)).1
  · exact ((cycle_C10_counter_asymmetry
      { containersList := Except.ok []
        checkEnvOf := fun _ =>
          { imagesBefore := fun n =>
              if n == "me/watch:1" then some ⟨"idS", ["docker.io/me/watch@sha256:55"]⟩ else none
            imagesAfter := fun _ => none
            pullOutcome := PullOutcome.exc "boom" }
        recreateOk := fun _ => true
        cleanupImages := 0, cleanupSpace := 0
        inject := none
        selfName := some "watcher"
        hostname := "h0"
        duration := 0 }
      ⟨initReport "h0", false, none, []⟩
      ⟨"watcher", "cid0", "sid0", ["me/watch:1"], "", []⟩).2.2 (by decide) (by decide)).1

/-! ### Claim theorems: whole-cycle behaviour -/

/-- Claim C2: in a cycle (free of unexpected mid-cycle exceptions) where the
self container's update check returns `update_available`, the Recreator is
never invoked on the self container, a `pending-restart` report is recorded,
the aggregate updated counter ends one above the number of `'updated'`
container reports, and the self-restart is the last event, right after the
`send_webhook` call. -/
theorem cycle_C2_self_update_deferral (env : CycleEnv) (cs : List Container)
    (sn : String) (c : Container) (b0 : Bool) (img0 : Option String)
    (hlist : env.containersList = Except.ok cs)
    (hinj : env.inject = none)
    (hsn : env.selfName = some sn)
    (hmem : c ∈ cs)
    (hname : c.name = sn)
    (hr : check_for_update_with_status (env.checkEnvOf c) c = .update_available) :
    (∀ b, Ev.recreated sn b ∉ (run_update_cycle env b0 img0).trace) ∧
    ((⟨c.name, (get_image_name c).getD "unknown", "pending-restart",
        "self-update: restart required"⟩ : ContainerReport) ∈
      (run_update_cycle env b0 img0).report.container_reports) ∧
    ((run_update_cycle env b0 img0).report.containers_updated =
      updatedCount (run_update_cycle env b0 img0).report.container_reports + 1) ∧
    (∃ pre, (run_update_cycle env b0 img0).trace =
      pre ++ [Ev.webhookSent, Ev.selfRestart]) := by
  have hself : is_self_container env.selfName env.hostname c = true := by
    simp [is_self_container, hsn, hname]
  have hne : cs.isEmpty = false := by
    cases cs with
    | nil => cases hmem
    | cons a t => rfl
  have hflag : (processContainers env cs
      ⟨initReport env.hostname, false, none, [Ev.listed]⟩).selfUpdate = true :=
    processContainers_selfUpdate_of_mem env cs _ c hmem hself hr
  have hrun : run_update_cycle env b0 img0 =
      { report := { (processContainers env cs
            ⟨initReport env.hostname, false, none, [Ev.listed]⟩).report with
          images_cleaned := env.cleanupImages
          space_reclaimed_mb := env.cleanupSpace
          containers_updated := (processContainers env cs
            ⟨initReport env.hostname, false, none, [Ev.listed]⟩).report.containers_updated + 1
          duration_seconds := env.duration }
        trace := (processContainers env cs
            ⟨initReport env.hostname, false, none, [Ev.listed]⟩).trace ++
          [Ev.cleanupRun, Ev.webhookSent] ++ [Ev.selfRestart]
        selfUpdate := true
        selfImage := (processContainers env cs
          ⟨initReport env.hostname, false, none, [Ev.listed]⟩).selfImage } := by
    simp [run_update_cycle, hlist, hinj, hne, hflag]
  refine ⟨?_, ?_, ?_, ?_⟩
  · intro b hb
    rw [hrun] at hb
    simp at hb
    rcases processContainers_recreated_mem env cs _ sn b hb with h2 | ⟨c2, hc2, hcc, hnn⟩
    · simp at h2
    · rw [hsn] at hcc
      simp [is_self_container, hnn] at hcc
  · rw [hrun]
    exact processContainers_pending_report env cs _ c hmem hself hr
  · rw [hrun]
    have hinv := processContainers_updated_inv env cs
      ⟨initReport env.hostname, false, none, [Ev.listed]⟩ (by simp [initReport, updatedCount])
    exact congrArg (· + 1) hinv
  · rw [hrun]
    exact ⟨(processContainers env cs
      ⟨initReport env.hostname, false, none, [Ev.listed]⟩).trace ++ [Ev.cleanupRun],
      by simp⟩

/-- Witness for C2 at a concrete one-container cycle: the self check says
`update_available` and the trace ends with the webhook call followed by the
self-restart. -/
theorem cycle_C2_witness :
    check_for_update_with_status
      (({ containersList := Except.ok [⟨"watcher", "cid0", "sid0", ["me/watch:1"], "", []⟩]
          checkEnvOf := fun _ =>
            { imagesBefore := fun n =>
                if n == "me/watch:1" then some ⟨"idS", ["docker.io/me/watch@sha256:55"]⟩ else none
              imagesAfter := fun n =>
                if n == "me/watch:1" then some ⟨"idT", ["docker.io/me/watch@sha256:66"]⟩ else none
              pullOutcome := PullOutcome.ok }
          recreateOk := fun _ => true
          cleanupImages := 0, cleanupSpace := 0
          inject := none
          selfName := some "watcher"
          hostname := "h0"
          duration := 3 } : CycleEnv).checkEnvOf
        ⟨"watcher", "cid0", "sid0", ["me/watch:1"], "", []⟩)
      ⟨"watcher", "cid0", "sid0", ["me/watch:1"], "", []⟩ = UpdateStatus.update_available ∧
    (∃ pre, (run_update_cycle
      { containersList := Except.ok [⟨"watcher", "cid0", "sid0", ["me/watch:1"], "", []⟩]
        checkEnvOf := fun _ =>
          { imagesBefore := fun n =>
              if n == "me/watch:1" then some ⟨"idS", ["docker.io/me/watch@sha256:55"]⟩ else none
            imagesAfter := fun n =>
              if n == "me/watch:1" then some ⟨"idT", ["docker.io/me/watch@sha256:66"]⟩ else none
            pullOutcome := PullOutcome.ok }
        recreateOk := fun _ => true
        cleanupImages := 0, cleanupSpace := 0
        inject := none
        selfName := some "watcher"
        hostname := "h0"
        duration := 3 }
      false none).trace = pre ++ [Ev.webhookSent, Ev.selfRestart]) := by
  refine ⟨by rfl, ?_⟩
  exact (cycle_C2_self_update_deferral
    { containersList := Except.ok [⟨"watcher", "cid0", "sid0", ["me/watch:1"], "", []⟩]
      checkEnvOf := fun _ =>
        { imagesBefore := fun n =>
            if n == "me/watch:1" then some ⟨"idS", ["docker.io/me/watch@sha256:55"]⟩ else none
          imagesAfter := fun n =>
            if n == "me/watch:1" then some ⟨"idT", ["docker.io/me/watch@sha256:66"]⟩ else none
          pullOutcome := PullOutcome.ok }
      recreateOk := fun _ => true
      cleanupImages := 0, cleanupSpace := 0
      inject := none
      selfName := some "watcher"
      hostname := "h0"
      duration := 3 }
    [⟨"watcher", "cid0", "sid0", ["me/watch:1"], "", []⟩] "watcher"
    ⟨"watcher", "cid0", "sid0", ["me/watch:1"], "", []⟩ false none
    rfl rfl rfl (by simp) rfl (by rfl)).2.2.2

/-- Counterexample to claim C3 as stated: one container is listed (the self
container) and its update check returns `error` (the pull raises), yet the
cycle report ends with no container report at all — the self branch of
`run_update_cycle` has no arm for the `error` outcome. -/
theorem cycle_C3_counterexample :
    (run_update_cycle
      { containersList := Except.ok [⟨"watcher", "cid0", "sid0", ["me/watch:1"], "", []⟩]
        checkEnvOf := fun _ =>
          { imagesBefore := fun n =>
              if n == "me/watch:1" then some ⟨"idS", ["docker.io/me/watch@sha256:55"]⟩ else none
            imagesAfter := fun _ => none
            pullOutcome := PullOutcome.exc "boom" }
        recreateOk := fun _ => true
        cleanupImages := 0, cleanupSpace := 0
        inject := none
        selfName := some "watcher"
        hostname := "h0"
        duration := 3 }
      false none).report.container_reports = [] := by
  rfl

/-- Claim C3 (amended): every ordinary container visited by the loop yields
exactly one container report, and so does every self container except one
whose update check returns `error`, which yields none. -/
theorem cycle_C3_reports_per_container (env : CycleEnv) (cs : List Container)
    (s : CycleState) :
    (processContainers env cs s).report.container_reports.length =
      s.report.container_reports.length +
        cs.countP (fun c => !(is_self_container env.selfName env.hostname c &&
          (check_for_update_with_status (env.checkEnvOf c) c == UpdateStatus.error))) := by
  induction cs generalizing s with
  | nil => simp [processContainers]
  | cons c rest ih =>
    rw [processContainers, ih, processOne_report_len]
    simp only [List.countP_cons]
    by_cases h1 : is_self_container env.selfName env.hostname c = true <;>
      by_cases h2 : check_for_update_with_status (env.checkEnvOf c) c = UpdateStatus.error <;>
        simp [h1, h2] <;> omega

/-- Claim C7: a cycle-level exception — a failing `containers.list()` or an
unexpected exception at a later step — aborts the remaining container
processing (every detector invocation in the trace names one of the containers
processed before the exception), yet the report still records the exception
message as a cycle-level error, is finalized with its duration stamped, and is
handed to `send_webhook`. -/
theorem cycle_C7_cycle_level_failure (env : CycleEnv) (b0 : Bool) (img0 : Option String) :
    (∀ e, env.containersList = Except.error e →
      (run_update_cycle env b0 img0).report.errors = [excString e] ∧
      (run_update_cycle env b0 img0).report.duration_seconds = env.duration ∧
      Ev.webhookSent ∈ (run_update_cycle env b0 img0).trace) ∧
    (∀ cs k e, env.containersList = Except.ok cs → cs.isEmpty = false →
      env.inject = some (k, e) →
      (run_update_cycle env b0 img0).report.errors = [excString e] ∧
      (run_update_cycle env b0 img0).report.duration_seconds = env.duration ∧
      Ev.webhookSent ∈ (run_update_cycle env b0 img0).trace ∧
      (∀ n, Ev.checked n ∈ (run_update_cycle env b0 img0).trace →
        ∃ c ∈ cs.take k, n = c.name)) := by
  constructor
  · intro e he
    refine ⟨?_, ?_, ?_⟩ <;> simp [run_update_cycle, he]
  · intro cs k e hlist hne hinj
    have hrun : run_update_cycle env b0 img0 =
        { report := { (processContainers env (cs.take k)
              ⟨initReport env.hostname, false, none, [Ev.listed]⟩).report with
            errors := (processContainers env (cs.take k)
              ⟨initReport env.hostname, false, none, [Ev.listed]⟩).report.errors ++ [excString e]
            duration_seconds := env.duration }
          trace := (processContainers env (cs.take k)
              ⟨initReport env.hostname, false, none, [Ev.listed]⟩).trace ++ [Ev.webhookSent] ++
            (if (processContainers env (cs.take k)
                ⟨initReport env.hostname, false, none, [Ev.listed]⟩).selfUpdate
             then [Ev.selfRestart] else [])
          selfUpdate := (processContainers env (cs.take k)
            ⟨initReport env.hostname, false, none, [Ev.listed]⟩).selfUpdate
          selfImage := (processContainers env (cs.take k)
            ⟨initReport env.hostname, false, none, [Ev.listed]⟩).selfImage } := by
      simp [run_update_cycle, hlist, hinj, hne]
    refine ⟨?_, ?_, ?_, ?_⟩
    · rw [hrun]
      simp [processContainers_errors, initReport]
    · rw [hrun]
    · rw [hrun]
      simp
    · intro n hn
      rw [hrun] at hn
      cases hsu : (processContainers env (cs.take k)
          ⟨initReport env.hostname, false, none, [Ev.listed]⟩).selfUpdate <;>
        simp [hsu] at hn <;>
          rcases processContainers_checked_mem env (cs.take k) _ n hn with h2 | h2 <;>
            first
              | (simp at h2)
              | exact h2

/-- Witness for C7: a concrete cycle whose container listing raises an
`APIError` still records the error string and calls `send_webhook`. -/
theorem cycle_C7_witness :
    (run_update_cycle
      { containersList := Except.error ⟨true, "cannot list containers"⟩
        checkEnvOf := fun _ =>
          { imagesBefore := fun _ => none, imagesAfter := fun _ => none
            pullOutcome := PullOutcome.ok }
        recreateOk := fun _ => true
        cleanupImages := 0, cleanupSpace := 0
        inject := none
        selfName := none
        hostname := "h0"
        duration := 4 }
      false none).report.errors =
        ["Docker API error during update cycle: cannot list containers"] ∧
    (run_update_cycle
      { containersList := Except.error ⟨true, "cannot list containers"⟩
        checkEnvOf := fun _ =>
          { imagesBefore := fun _ => none, imagesAfter := fun _ => none
            pullOutcome := PullOutcome.ok }
        recreateOk := fun _ => true
        cleanupImages := 0, cleanupSpace := 0
        inject := none
        selfName := none
        hostname := "h0"
        duration := 4 }
      false none).report.duration_seconds = 4 ∧
    Ev.webhookSent ∈ (run_update_cycle
      { containersList := Except.error ⟨true, "cannot list containers"⟩
        checkEnvOf := fun _ =>
          { imagesBefore := fun _ => none, imagesAfter := fun _ => none
            pullOutcome := PullOutcome.ok }
        recreateOk := fun _ => true
        cleanupImages := 0, cleanupSpace := 0
        inject := none
        selfName := none
        hostname := "h0"
        duration := 4 }
      false none).trace := by
  exact (cycle_C7_cycle_level_failure
    { containersList := Except.error ⟨true, "cannot list containers"⟩
      checkEnvOf := fun _ =>
        { imagesBefore := fun _ => none, imagesAfter := fun _ => none
          pullOutcome := PullOutcome.ok }
      recreateOk := fun _ => true
      cleanupImages := 0, cleanupSpace := 0
      inject := none
      selfName := none
      hostname := "h0"
      duration := 4 }
    false none).1 ⟨true, "cannot list containers"⟩ rfl

/-! ### Claim theorems: container recreation -/

/-- Claim C4: recreation stops the old container with a 30-unit grace period,
then removes it, then creates-and-starts a replacement under the same name;
every optional configuration field enters the creation request exactly when
the introspected source value is non-empty (non-falsy); and a failure at
stop, remove or create makes the operation return `false`, issuing no
operation beyond the failing one — in particular no rollback. -/
theorem recreate_C4_semantics (env : RecreateEnv) (a : ContainerAttrs) :
    ((buildCreateRequest a).name = a.name ∧
     (buildCreateRequest a).image = a.image ∧
     ((buildCreateRequest a).environment.isSome ↔ a.env ≠ []) ∧
     ((buildCreateRequest a).command.isSome ↔ a.cmd ≠ []) ∧
     ((buildCreateRequest a).entrypoint.isSome ↔ a.entrypoint ≠ []) ∧
     ((buildCreateRequest a).working_dir.isSome ↔ a.workingDir ≠ "") ∧
     ((buildCreateRequest a).user.isSome ↔ a.user ≠ "") ∧
     ((buildCreateRequest a).labels.isSome ↔ a.labels ≠ []) ∧
     ((buildCreateRequest a).ports.isSome ↔ a.portBindings ≠ []) ∧
     ((buildCreateRequest a).volumes.isSome ↔ a.binds ≠ []) ∧
     ((buildCreateRequest a).mounts.isSome ↔ a.mounts ≠ []) ∧
     ((buildCreateRequest a).network_mode.isSome ↔ a.networkMode ≠ "") ∧
     ((buildCreateRequest a).restart_policy.isSome ↔ a.restartPolicy.isSome) ∧
     ((buildCreateRequest a).privileged.isSome ↔ a.privileged = true) ∧
     ((buildCreateRequest a).cap_add.isSome ↔ a.capAdd ≠ []) ∧
     ((buildCreateRequest a).cap_drop.isSome ↔ a.capDrop ≠ []) ∧
     ((buildCreateRequest a).mem_limit.isSome ↔ a.memory ≠ 0) ∧
     ((buildCreateRequest a).nano_cpus.isSome ↔ a.nanoCpus ≠ 0)) ∧
    ((recreate_container env a).2 <+:
      [RecOp.stopOld 30, RecOp.removeOld, RecOp.createNew (buildCreateRequest a)]) ∧
    ((recreate_container env a).1 = true ↔
      env.stopFails = false ∧ env.removeFails = false ∧ env.createFails = false) := by
  refine ⟨⟨rfl, rfl, ?_, ?_, ?_, ?_, ?_, ?_, ?_, ?_, ?_, ?_, ?_, ?_, ?_, ?_, ?_, ?_⟩, ?_, ?_⟩
  · by_cases h : a.env = [] <;> simp [buildCreateRequest, h]
  · by_cases h : a.cmd = [] <;> simp [buildCreateRequest, h]
  · by_cases h : a.entrypoint = [] <;> simp [buildCreateRequest, h]
  · by_cases h : a.workingDir = "" <;> simp [buildCreateRequest, h]
  · by_cases h : a.user = "" <;> simp [buildCreateRequest, h]
  · by_cases h : a.labels = [] <;> simp [buildCreateRequest, h]
  · by_cases h : a.portBindings = [] <;> simp [buildCreateRequest, h]
  · by_cases h : a.binds = [] <;> simp [buildCreateRequest, h]
  · by_cases h : a.mounts = [] <;> simp [buildCreateRequest, h]
  · by_cases h : a.networkMode = "" <;> simp [buildCreateRequest, h]
  · cases h : a.restartPolicy <;> simp [buildCreateRequest, h]
  · cases h : a.privileged <;> simp [buildCreateRequest, h]
  · by_cases h : a.capAdd = [] <;> simp [buildCreateRequest, h]
  · by_cases h : a.capDrop = [] <;> simp [buildCreateRequest, h]
  · by_cases h : a.memory = 0 <;> simp [buildCreateRequest, h]
  · by_cases h : a.nanoCpus = 0 <;> simp [buildCreateRequest, h]
  · by_cases h1 : env.stopFails = true <;> by_cases h2 : env.removeFails = true <;>
      by_cases h3 : env.createFails = true <;>
        simp only [recreate_container, h1, h2, h3, Bool.false_eq_true, if_true, if_false] <;>
          exact ⟨_, rfl⟩
  · by_cases h1 : env.stopFails = true <;> by_cases h2 : env.removeFails = true <;>
      by_cases h3 : env.createFails = true <;>
        simp [recreate_container, h1, h2, h3]

/-- Witness for C4 at a concrete recreation whose remove step fails: the
issued operations are a prefix of stop-remove-create and the result is
`false`. -/
theorem recreate_C4_witness :
    ((recreate_container ⟨false, true, false⟩
        ⟨"web", "nginx:latest", ["A=1"], [], [], "", "", [], [], [], [], "",
          none, false, [], [], 0, 0⟩).2 <+:
      [RecOp.stopOld 30, RecOp.removeOld,
        RecOp.createNew (buildCreateRequest
          ⟨"web", "nginx:latest", ["A=1"], [], [], "", "", [], [], [], [], "",
            none, false, [], [], 0, 0⟩)]) ∧
    ((recreate_container ⟨false, true, false⟩
        ⟨"web", "nginx:latest", ["A=1"], [], [], "", "", [], [], [], [], "",
          none, false, [], [], 0, 0⟩).1 = true ↔
      (false = false ∧ true = false ∧ false = false)) := by
  have h := recreate_C4_semantics ⟨false, true, false⟩
    ⟨"web", "nginx:latest", ["A=1"], [], [], "", "", [], [], [], [], "",
      none, false, [], [], 0, 0⟩
  exact ⟨h.2.1, h.2.2⟩

/-! ### Claim theorems: scheduler loop -/

/-- Every slice produced by the inner sleep loop is positive and at most 60
units. -/
theorem sleepLoop_slices (stopT : Option Nat) :
    ∀ (wait t k : Nat), k ∈ (sleepLoop stopT t wait).1 → 0 < k ∧ k ≤ 60 := by
  intro wait
  induction wait using Nat.strong_induction_on with
  | _ wait ih =>
    intro t k hk
    rw [sleepLoop] at hk
    split_ifs at hk with h
    · rcases List.mem_cons.mp hk with rfl | hk2
      · omega
      · exact ih (wait - min wait 60) (by omega) (t + min wait 60) k hk2
    · cases hk

/-- Each iteration of the scheduler loop contributes exactly one well-formed
block of events. -/
theorem loopIter_shape (env : SchedEnv) (st : SchedState) :
    ∃ b : IterBlock, (loopIter env st).1 = blockEvents b ∧ blockWf b := by
  set wait := env.cronFn st.cronBase (st.cronSteps + 1) - st.time with hwait
  set sl := (if 0 < wait then sleepLoop env.stopT st.time wait else ([], st.time)) with hslDef
  have hsl : ∀ k ∈ sl.1, k ≤ 60 := by
    rw [hslDef]
    split_ifs with h
    · intro k hk
      exact (sleepLoop_slices env.stopT wait st.time k hk).2
    · intro k hk
      cases hk
  have hunf : loopIter env st =
      (if runningAt env.stopT sl.2 then
        match env.cycle sl.2 with
        | .finishes dur =>
          (sl.1.map SEv.sleepSlice ++
            [SEv.cycleStart sl.2, SEv.cycleEnd (sl.2 + dur) false,
              SEv.rescheduled (sl.2 + dur)],
           { time := sl.2 + dur, cronBase := sl.2 + dur, cronSteps := 0 })
        | .raises dur =>
          (sl.1.map SEv.sleepSlice ++
            [SEv.cycleStart sl.2, SEv.cycleEnd (sl.2 + dur) true, SEv.backoff 60],
           { time := sl.2 + dur + 60, cronBase := st.cronBase,
             cronSteps := st.cronSteps + 1 })
      else
        (sl.1.map SEv.sleepSlice,
         { time := sl.2, cronBase := st.cronBase, cronSteps := st.cronSteps + 1 })) := rfl
  rw [hunf]
  by_cases hrun : runningAt env.stopT sl.2 = true
  · rw [if_pos hrun]
    cases hcy : env.cycle sl.2 with
    | finishes dur =>
      exact ⟨IterBlock.finishedCycle sl.1 sl.2 (sl.2 + dur), rfl,
        hsl, Nat.le_add_right _ _⟩
    | raises dur =>
      exact ⟨IterBlock.raisedCycle sl.1 sl.2 (sl.2 + dur), rfl,
        hsl, Nat.le_add_right _ _⟩
  · rw [if_neg hrun]
    exact ⟨IterBlock.stoppedEarly sl.1, rfl, hsl⟩

/-- Claim C8: every trace of the scheduler loop decomposes into consecutive
well-formed iteration blocks. Each block sleeps in slices of at most 60 units
(the liveness flag is re-read between slices by construction of the sleep
loop); a block contains at most one complete `cycleStart`/`cycleEnd` pair, so
no two cycles ever overlap; a `rescheduled` event occurs only immediately
after a successful `cycleEnd` and carries that cycle's return instant — the
next scheduled instant is computed from "now" only after the cycle returns;
and a raising cycle is followed by the fixed 60-unit backoff event, after
which — as the second conjunct states — the loop always proceeds to its next
iteration rather than terminating, as long as no shutdown was signalled. -/
theorem sched_C8_scheduler_shape (env : SchedEnv) (n : Nat) (st : SchedState) :
    (∃ blocks : List IterBlock,
      schedRun env n st = blocksEvents blocks ∧ ∀ b ∈ blocks, blockWf b) ∧
    (runningAt env.stopT st.time = true →
      schedRun env (n + 1) st = (loopIter env st).1 ++ schedRun env n (loopIter env st).2) := by
  constructor
  · induction n generalizing st with
    | zero => exact ⟨[], rfl, by simp⟩
    | succ m ih =>
      by_cases hr : runningAt env.stopT st.time = true
      · obtain ⟨b1, hb1, hwf1⟩ := loopIter_shape env st
        obtain ⟨blocks, hb, hwf⟩ := ih (loopIter env st).2
        refine ⟨b1 :: blocks, ?_, ?_⟩
        · rw [schedRun]
          simp only [hr, if_true, blocksEvents, hb1, hb]
        · intro b hbm
          rcases List.mem_cons.mp hbm with rfl | hbm2
          · exact hwf1
          · exact hwf b hbm2
      · refine ⟨[], ?_, by simp⟩
        rw [schedRun]
        simp [hr, blocksEvents]
  · intro hr
    rw [schedRun]
    simp [hr]

/-- Witness for C8: the block decomposition at a concrete schedule (cycles
every 100 units, shutdown at 500, cycles of 10 units that raise on odd start
instants). -/
theorem sched_C8_witness :
    (∃ blocks : List IterBlock,
      schedRun
        { cronFn := fun base k => base + 100 * k
          stopT := some 500
          cycle := fun t => if t % 2 == 0 then CycleOutcome.finishes 10
            else CycleOutcome.raises 10 }
        5 ⟨0, 0, 0⟩ = blocksEvents blocks ∧ ∀ b ∈ blocks, blockWf b) ∧
    schedRun
      { cronFn := fun base k => base + 100 * k
        stopT := some 500
        cycle := fun t => if t % 2 == 0 then CycleOutcome.finishes 10
          else CycleOutcome.raises 10 }
      6 ⟨0, 0, 0⟩ =
      (loopIter
        { cronFn := fun base k => base + 100 * k
          stopT := some 500
          cycle := fun t => if t % 2 == 0 then CycleOutcome.finishes 10
            else CycleOutcome.raises 10 }
        ⟨0, 0, 0⟩).1 ++
      schedRun
        { cronFn := fun base k => base + 100 * k
          stopT := some 500
          cycle := fun t => if t % 2 == 0 then CycleOutcome.finishes 10
            else CycleOutcome.raises 10 }
        5 (loopIter
          { cronFn := fun base k => base + 100 * k
            stopT := some 500
            cycle := fun t => if t % 2 == 0 then CycleOutcome.finishes 10
              else CycleOutcome.raises 10 }
          ⟨0, 0, 0⟩).2 :=
  ⟨(sched_C8_scheduler_shape
      { cronFn := fun base k => base + 100 * k
        stopT := some 500
        cycle := fun t => if t % 2 == 0 then CycleOutcome.finishes 10
          else CycleOutcome.raises 10 }
      5 ⟨0, 0, 0⟩).1,
   (sched_C8_scheduler_shape
      { cronFn := fun base k => base + 100 * k
        stopT := some 500
        cycle := fun t => if t % 2 == 0 then CycleOutcome.finishes 10
          else CycleOutcome.raises 10 }
      5 ⟨0, 0, 0⟩).2 (by decide)⟩

end DockerWatch
